import Mathlib

/-!
Shallow embedding of the turn accounting engine and session registry of the
live-voice-web-app repository (src/app/cost_tracker.py, src/app/latency_tracker.py,
src/app/session_manager.py).

Python floats are embedded as rationals (ℚ); `time.time()` reads are passed in as
explicit timestamp arguments; Python `Optional[float]` is `Option ℚ`; a Python
truthiness test `if x:` on an `Optional[float]` is `x` being `some v` with `v ≠ 0`.
Mutating methods become state-passing functions.
-/

namespace VoiceApp

/-! ## cost_tracker.py -/

-- Pricing constants (USD), CostTracker class attributes.
def SONIOX_COST_PER_MINUTE : ℚ := 2 / 1000

def GROQ_INPUT_COST_PER_MILLION : ℚ := 59 / 100

def GROQ_OUTPUT_COST_PER_MILLION : ℚ := 79 / 100

def ELEVENLABS_COST_PER_1K_CHARS : ℚ := 24 / 100

/-- `TurnCost` dataclass: cost breakdown for a single turn. -/
structure TurnCost where
  turn_id : ℕ
  stt_cost : ℚ := 0
  llm_input_cost : ℚ := 0
  llm_output_cost : ℚ := 0
  tts_cost : ℚ := 0
  timestamp : ℚ := 0
deriving DecidableEq, Repr

/-- `TurnCost.llm_cost` property. -/
def TurnCost.llm_cost (t : TurnCost) : ℚ := t.llm_input_cost + t.llm_output_cost

/-- `TurnCost.total` property. -/
def TurnCost.total (t : TurnCost) : ℚ := t.stt_cost + t.llm_cost + t.tts_cost

/-- `CostTracker` state: `turns` is the finalized history, `current_turn` the open
turn (`_current_turn`), `turn_counter` the `_turn_counter` field. -/
structure CostTracker where
  session_id : String := "default"
  turns : List TurnCost := []
  current_turn : TurnCost := { turn_id := 0 }
  turn_counter : ℕ := 0
deriving DecidableEq, Repr

/-- `CostTracker.__init__`; `created` is the `time.time()` read taken when the
initial open `TurnCost` is constructed. -/
def CostTracker.init (sid : String) (created : ℚ) : CostTracker :=
  { session_id := sid
    turns := []
    current_turn := { turn_id := 0, timestamp := created }
    turn_counter := 0 }

/-- `CostTracker.add_stt_cost`. -/
def CostTracker.add_stt_cost (c : CostTracker) (audio_duration_seconds : ℚ) : CostTracker :=
  { c with current_turn := { c.current_turn with
      stt_cost := c.current_turn.stt_cost
        + (audio_duration_seconds / 60) * SONIOX_COST_PER_MINUTE } }

/-- `CostTracker.add_llm_cost`. -/
def CostTracker.add_llm_cost (c : CostTracker) (input_tokens output_tokens : ℕ) : CostTracker :=
  { c with current_turn := { c.current_turn with
      llm_input_cost := c.current_turn.llm_input_cost
        + ((input_tokens : ℚ) / 1000000) * GROQ_INPUT_COST_PER_MILLION
      llm_output_cost := c.current_turn.llm_output_cost
        + ((output_tokens : ℚ) / 1000000) * GROQ_OUTPUT_COST_PER_MILLION } }

/-- `CostTracker.add_tts_cost`. -/
def CostTracker.add_tts_cost (c : CostTracker) (characters : ℕ) : CostTracker :=
  { c with current_turn := { c.current_turn with
      tts_cost := c.current_turn.tts_cost
        + ((characters : ℚ) / 1000) * ELEVENLABS_COST_PER_1K_CHARS } }

/-- `CostTracker.finish_turn`: returns the completed turn and the new state;
`now` is the `time.time()` read used for the fresh open turn's timestamp. -/
def CostTracker.finish_turn (c : CostTracker) (now : ℚ) : TurnCost × CostTracker :=
  (c.current_turn,
   { c with
      turns := c.turns ++ [c.current_turn]
      turn_counter := c.turn_counter + 1
      current_turn := { turn_id := c.turn_counter + 1, timestamp := now } })

/-- `CostTracker.total_stt_cost` property. -/
def CostTracker.total_stt_cost (c : CostTracker) : ℚ :=
  (c.turns.map TurnCost.stt_cost).sum + c.current_turn.stt_cost

/-- `CostTracker.total_llm_cost` property. -/
def CostTracker.total_llm_cost (c : CostTracker) : ℚ :=
  (c.turns.map TurnCost.llm_cost).sum + c.current_turn.llm_cost

/-- `CostTracker.total_tts_cost` property. -/
def CostTracker.total_tts_cost (c : CostTracker) : ℚ :=
  (c.turns.map TurnCost.tts_cost).sum + c.current_turn.tts_cost

/-- `CostTracker.total_cost` property. -/
def CostTracker.total_cost (c : CostTracker) : ℚ :=
  c.total_stt_cost + c.total_llm_cost + c.total_tts_cost

/-- `CostTracker.turn_count` property. -/
def CostTracker.turn_count (c : CostTracker) : ℕ := c.turns.length

/-- `CostTracker.average_cost_per_turn` property. -/
def CostTracker.average_cost_per_turn (c : CostTracker) : ℚ :=
  if c.turns = [] then 0 else c.total_cost / c.turns.length

/-- One mutating operation on a `CostTracker`, with the external inputs
(durations, token counts, clock reads) made explicit. -/
inductive CostOp where
  | addStt (audio_duration_seconds : ℚ)
  | addLlm (input_tokens output_tokens : ℕ)
  | addTts (characters : ℕ)
  | finish (now : ℚ)
deriving DecidableEq, Repr

/-- Apply one operation to the tracker state. -/
def CostTracker.step (c : CostTracker) : CostOp → CostTracker
  | .addStt d => c.add_stt_cost d
  | .addLlm i o => c.add_llm_cost i o
  | .addTts n => c.add_tts_cost n
  | .finish t => (c.finish_turn t).2

/-! ## latency_tracker.py -/

/-- `StageLatency` dataclass: timestamps for a single processing stage.
A Python truthiness test on these fields treats `none` and `some 0` alike. -/
structure StageLatency where
  stage : String
  start_time : Option ℚ := none
  first_result_time : Option ℚ := none
  end_time : Option ℚ := none
deriving DecidableEq, Repr

/-- `StageLatency.time_to_first_result` property: the source guards with
`if self.start_time and self.first_result_time:`, so a missing or zero
timestamp yields `None`. -/
def StageLatency.time_to_first_result (s : StageLatency) : Option ℚ :=
  match s.start_time, s.first_result_time with
  | some a, some b => if a = 0 ∨ b = 0 then none else some ((b - a) * 1000)
  | _, _ => none

/-- `StageLatency.total_duration` property, guarded by
`if self.start_time and self.end_time:`. -/
def StageLatency.total_duration (s : StageLatency) : Option ℚ :=
  match s.start_time, s.end_time with
  | some a, some b => if a = 0 ∨ b = 0 then none else some ((b - a) * 1000)
  | _, _ => none

/-- `TurnLatency` dataclass: per-stage breakdown for one turn. -/
structure TurnLatency where
  turn_id : ℕ
  turn_start_time : ℚ := 0
  turn_end_time : Option ℚ := none
  stt : StageLatency := { stage := "stt" }
  llm : StageLatency := { stage := "llm" }
  tool : StageLatency := { stage := "tool" }
  tts : StageLatency := { stage := "tts" }
deriving DecidableEq, Repr

/-- `TurnLatency.end_to_end_latency` property, guarded by
`if self.stt.start_time and self.tts.first_result_time:`. -/
def TurnLatency.end_to_end_latency (t : TurnLatency) : Option ℚ :=
  match t.stt.start_time, t.tts.first_result_time with
  | some a, some b => if a = 0 ∨ b = 0 then none else some ((b - a) * 1000)
  | _, _ => none

/-- `TurnLatency.total_turn_duration` property, guarded by
`if self.turn_end_time:`. -/
def TurnLatency.total_turn_duration (t : TurnLatency) : Option ℚ :=
  match t.turn_end_time with
  | some e => if e = 0 then none else some ((e - t.turn_start_time) * 1000)
  | none => none

/-- `LatencyTracker` state. -/
structure LatencyTracker where
  session_id : String := "default"
  turns : List TurnLatency := []
  current_turn : TurnLatency := { turn_id := 0 }
  turn_counter : ℕ := 0
deriving DecidableEq, Repr

/-- `LatencyTracker.__init__`; `created` is the `time.time()` read for the
initial open turn's `turn_start_time`. -/
def LatencyTracker.init (sid : String) (created : ℚ) : LatencyTracker :=
  { session_id := sid
    turns := []
    current_turn := { turn_id := 0, turn_start_time := created }
    turn_counter := 0 }

/-- `LatencyTracker.start_stt`. -/
def LatencyTracker.start_stt (l : LatencyTracker) (now : ℚ) : LatencyTracker :=
  { l with current_turn := { l.current_turn with
      stt := { l.current_turn.stt with start_time := some now } } }

/-- `LatencyTracker.stt_first_result`. -/
def LatencyTracker.stt_first_result (l : LatencyTracker) (now : ℚ) : LatencyTracker :=
  { l with current_turn := { l.current_turn with
      stt := { l.current_turn.stt with first_result_time := some now } } }

/-- `LatencyTracker.end_stt`. -/
def LatencyTracker.end_stt (l : LatencyTracker) (now : ℚ) : LatencyTracker :=
  { l with current_turn := { l.current_turn with
      stt := { l.current_turn.stt with end_time := some now } } }

/-- `LatencyTracker.start_llm`. -/
def LatencyTracker.start_llm (l : LatencyTracker) (now : ℚ) : LatencyTracker :=
  { l with current_turn := { l.current_turn with
      llm := { l.current_turn.llm with start_time := some now } } }

/-- `LatencyTracker.llm_first_token`. -/
def LatencyTracker.llm_first_token (l : LatencyTracker) (now : ℚ) : LatencyTracker :=
  { l with current_turn := { l.current_turn with
      llm := { l.current_turn.llm with first_result_time := some now } } }

/-- `LatencyTracker.end_llm`. -/
def LatencyTracker.end_llm (l : LatencyTracker) (now : ℚ) : LatencyTracker :=
  { l with current_turn := { l.current_turn with
      llm := { l.current_turn.llm with end_time := some now } } }

/-- `LatencyTracker.start_tool`. -/
def LatencyTracker.start_tool (l : LatencyTracker) (now : ℚ) : LatencyTracker :=
  { l with current_turn := { l.current_turn with
      tool := { l.current_turn.tool with start_time := some now } } }

/-- `LatencyTracker.end_tool`: sets `end_time = time.time()` and then copies
that same value into `first_result_time`. -/
def LatencyTracker.end_tool (l : LatencyTracker) (now : ℚ) : LatencyTracker :=
  { l with current_turn := { l.current_turn with
      tool := { l.current_turn.tool with
        end_time := some now
        first_result_time := some now } } }

/-- `LatencyTracker.start_tts`. -/
def LatencyTracker.start_tts (l : LatencyTracker) (now : ℚ) : LatencyTracker :=
  { l with current_turn := { l.current_turn with
      tts := { l.current_turn.tts with start_time := some now } } }

/-- The structured record logged by `tts_first_audio` when the end-to-end
latency is truthy. -/
structure E2ELogEvent where
  latency_ms : ℚ
  target_met : Bool
deriving DecidableEq, Repr

/-- `LatencyTracker.tts_first_audio`: records the first-audio timestamp, then
logs `end_to_end_latency` with `target_met = (e2e <= 2000)` — but only when
`if e2e:` is truthy, i.e. the latency is defined and nonzero. The emitted log
record is returned alongside the new state. -/
def LatencyTracker.tts_first_audio (l : LatencyTracker) (now : ℚ) :
    LatencyTracker × Option E2ELogEvent :=
  let l2 : LatencyTracker :=
    { l with current_turn := { l.current_turn with
        tts := { l.current_turn.tts with first_result_time := some now } } }
  (l2,
   match l2.current_turn.end_to_end_latency with
   | some v =>
       if v = 0 then none
       else some { latency_ms := v, target_met := decide (v ≤ 2000) }
   | none => none)

/-- `LatencyTracker.end_tts`. -/
def LatencyTracker.end_tts (l : LatencyTracker) (now : ℚ) : LatencyTracker :=
  { l with current_turn := { l.current_turn with
      tts := { l.current_turn.tts with end_time := some now } } }

/-- `LatencyTracker.finish_turn`: stamps `turn_end_time`, appends the completed
turn to history, and opens a fresh turn with the next sequential id. -/
def LatencyTracker.finish_turn (l : LatencyTracker) (now : ℚ) :
    TurnLatency × LatencyTracker :=
  let completed : TurnLatency := { l.current_turn with turn_end_time := some now }
  (completed,
   { l with
      turns := l.turns ++ [completed]
      turn_counter := l.turn_counter + 1
      current_turn := { turn_id := l.turn_counter + 1, turn_start_time := now } })

/-- The list comprehension
`[t.end_to_end_latency for t in self.turns if t.end_to_end_latency]`:
keeps only truthy (defined and nonzero) values. -/
def LatencyTracker.qualifying_latencies (l : LatencyTracker) : List ℚ :=
  l.turns.filterMap fun t =>
    match t.end_to_end_latency with
    | some v => if v = 0 then none else some v
    | none => none

/-- `LatencyTracker.average_end_to_end_latency` property. -/
def LatencyTracker.average_end_to_end_latency (l : LatencyTracker) : Option ℚ :=
  if l.qualifying_latencies = [] then none
  else some (l.qualifying_latencies.sum / l.qualifying_latencies.length)

/-- `LatencyTracker.turn_count` property. -/
def LatencyTracker.turn_count (l : LatencyTracker) : ℕ := l.turns.length

/-- One mutating operation on a `LatencyTracker`, with the `time.time()` read
made explicit. -/
inductive LatOp where
  | startStt (now : ℚ)
  | sttFirstResult (now : ℚ)
  | endStt (now : ℚ)
  | startLlm (now : ℚ)
  | llmFirstToken (now : ℚ)
  | endLlm (now : ℚ)
  | startTool (now : ℚ)
  | endTool (now : ℚ)
  | startTts (now : ℚ)
  | ttsFirstAudio (now : ℚ)
  | endTts (now : ℚ)
  | finish (now : ℚ)
deriving DecidableEq, Repr

/-- Apply one operation to the tracker state. -/
def LatencyTracker.step (l : LatencyTracker) : LatOp → LatencyTracker
  | .startStt t => l.start_stt t
  | .sttFirstResult t => l.stt_first_result t
  | .endStt t => l.end_stt t
  | .startLlm t => l.start_llm t
  | .llmFirstToken t => l.llm_first_token t
  | .endLlm t => l.end_llm t
  | .startTool t => l.start_tool t
  | .endTool t => l.end_tool t
  | .startTts t => l.start_tts t
  | .ttsFirstAudio t => (l.tts_first_audio t).1
  | .endTts t => l.end_tts t
  | .finish t => (l.finish_turn t).2

/-- Run a sequence of operations from a given state. -/
def LatencyTracker.run (l : LatencyTracker) (ops : List LatOp) : LatencyTracker :=
  ops.foldl LatencyTracker.step l

/-! ## session_manager.py -/

/-- `Session` dataclass; `__post_init__` constructs the two trackers with the
session's own id when none are supplied. -/
structure Session where
  session_id : String
  created_at : ℚ
  cost_tracker : CostTracker
  latency_tracker : LatencyTracker
  is_active : Bool := true
  metadata : List (String × String) := []
deriving DecidableEq, Repr

/-- Constructing `Session(session_id=sid, metadata=meta)` at clock time
`created`: `__post_init__` fills in fresh trackers keyed by `sid`. -/
def mkSession (sid : String) (created : ℚ) (meta : List (String × String)) : Session :=
  { session_id := sid
    created_at := created
    cost_tracker := CostTracker.init sid created
    latency_tracker := LatencyTracker.init sid created
    is_active := true
    metadata := meta }

/-- `SessionManager` state: the `_sessions` dict is an association list with
unique keys in insertion order; `_total_sessions_created` the counter. -/
structure SessionManager where
  sessions : List (String × Session) := []
  total_sessions_created : ℕ := 0
deriving DecidableEq, Repr

/-- `SessionManager()` constructor. -/
def SessionManager.init : SessionManager :=
  { sessions := [], total_sessions_created := 0 }

/-- Dict lookup `self._sessions.get(session_id)` / `session_id in self._sessions`. -/
def SessionManager.lookup (m : SessionManager) (sid : String) : Option Session :=
  (m.sessions.find? fun p => p.1 = sid).map Prod.snd

/-- `SessionManager.create_session`: returns the existing session unchanged on a
duplicate id, otherwise inserts a fresh `Session` and bumps the counter.
`now` is the clock read used by the new session's `created_at` and trackers. -/
def SessionManager.create_session (m : SessionManager) (sid : String)
    (meta : List (String × String)) (now : ℚ) : Session × SessionManager :=
  match m.lookup sid with
  | some s => (s, m)
  | none =>
      let s := mkSession sid now meta
      (s, { m with
              sessions := m.sessions ++ [(sid, s)]
              total_sessions_created := m.total_sessions_created + 1 })

/-- `SessionManager.remove_session`: `self._sessions.pop(session_id, None)`
removes the (unique) entry for the key; the popped session then has
`is_active` set to `False` and is returned. -/
def SessionManager.remove_session (m : SessionManager) (sid : String) :
    Option Session × SessionManager :=
  match m.lookup sid with
  | none => (none, m)
  | some s =>
      (some { s with is_active := false },
       { m with sessions := m.sessions.filter fun p => p.1 ≠ sid })

/-- `SessionManager.active_session_count` property. -/
def SessionManager.active_session_count (m : SessionManager) : ℕ :=
  m.sessions.length

/-- Python `round` (banker's rounding) on an exact rational. -/
def roundHalfEven (x : ℚ) : ℤ :=
  let f := ⌊x⌋
  let r := x - f
  if r < 1 / 2 then f
  else if r > 1 / 2 then f + 1
  else if f % 2 = 0 then f else f + 1

/-- `round(x, ndigits)` on an exact rational. -/
def pyRound (x : ℚ) (ndigits : ℕ) : ℚ :=
  (roundHalfEven (x * 10 ^ ndigits) : ℚ) / 10 ^ ndigits

/-- The `aggregate_cost` entry of the metrics dict: the empty-registry branch
returns the bare float `0.0`, the populated branch a nested dict
`{total, breakdown: {stt, llm, tts}}`. -/
inductive AggregateCost where
  | scalar (value : ℚ)
  | detailed (total stt llm tts : ℚ)
deriving DecidableEq, Repr

/-- The dict returned by `SessionManager.get_aggregate_metrics`; keys that a
branch omits are `none`. -/
structure AggregateMetrics where
  active_sessions : ℕ
  total_sessions_created : ℕ
  total_turns : Option ℕ
  aggregate_cost : AggregateCost
  average_latency_ms : Option ℚ
  target_latency_ms : Option ℕ
deriving DecidableEq, Repr

/-- `SessionManager._get_cost_breakdown`: per-category sums over all sessions,
each rounded to 6 decimals. -/
def SessionManager.get_cost_breakdown (m : SessionManager) : ℚ × ℚ × ℚ :=
  let sess := m.sessions.map Prod.snd
  (pyRound ((sess.map fun s => s.cost_tracker.total_stt_cost).sum) 6,
   pyRound ((sess.map fun s => s.cost_tracker.total_llm_cost).sum) 6,
   pyRound ((sess.map fun s => s.cost_tracker.total_tts_cost).sum) 6)

/-- `SessionManager.get_aggregate_metrics`. The early return for an empty
`_sessions` dict yields a flat `aggregate_cost` float and omits the
`total_turns` and `target_latency_ms` keys; the populated branch collects the
truthy per-session average latencies (`if avg_lat:`) and builds the nested
cost dict. -/
def SessionManager.get_aggregate_metrics (m : SessionManager) : AggregateMetrics :=
  if m.sessions = [] then
    { active_sessions := 0
      total_sessions_created := m.total_sessions_created
      total_turns := none
      aggregate_cost := .scalar 0
      average_latency_ms := none
      target_latency_ms := none }
  else
    let sess := m.sessions.map Prod.snd
    let total_cost := (sess.map fun s => s.cost_tracker.total_cost).sum
    let total_turns := (sess.map fun s => s.latency_tracker.turn_count).sum
    let latencies := sess.filterMap fun s =>
      match s.latency_tracker.average_end_to_end_latency with
      | some v => if v = 0 then none else some v
      | none => none
    let avg_latency : Option ℚ :=
      if latencies = [] then none else some (latencies.sum / latencies.length)
    let bd := m.get_cost_breakdown
    { active_sessions := m.active_session_count
      total_sessions_created := m.total_sessions_created
      total_turns := some total_turns
      aggregate_cost := .detailed (pyRound total_cost 6) bd.1 bd.2.1 bd.2.2
      average_latency_ms :=
        match avg_latency with
        | some v => if v = 0 then none else some (pyRound v 2)
        | none => none
      target_latency_ms := some 2000 }

/-- One registry-mutating operation, with external inputs explicit. -/
inductive RegOp where
  | create (sid : String) (meta : List (String × String)) (now : ℚ)
  | remove (sid : String)
deriving DecidableEq, Repr

/-- Apply one registry operation. -/
def SessionManager.step (m : SessionManager) : RegOp → SessionManager
  | .create sid meta now => (m.create_session sid meta now).2
  | .remove sid => (m.remove_session sid).2

/-- Run a sequence of registry operations. -/
def SessionManager.run (m : SessionManager) (ops : List RegOp) : SessionManager :=
  ops.foldl SessionManager.step m

/-! ## Helper lemmas -/

/-- Summing `TurnCost.total` over a list splits into the three per-category sums. -/
lemma sum_total_split (l : List TurnCost) :
    (l.map TurnCost.total).sum
      = (l.map TurnCost.stt_cost).sum + (l.map TurnCost.llm_cost).sum
        + (l.map TurnCost.tts_cost).sum := by
  induction l with
  | nil => simp
  | cons a t ih =>
      simp only [List.map_cons, List.sum_cons, ih, TurnCost.total]
      ring

/-- `total_cost` is the sum of per-turn totals over history plus the open turn's total. -/
lemma CostTracker.total_cost_eq_sum (c : CostTracker) :
    c.total_cost = (c.turns.map TurnCost.total).sum + c.current_turn.total := by
  simp only [CostTracker.total_cost, CostTracker.total_stt_cost, CostTracker.total_llm_cost,
    CostTracker.total_tts_cost, sum_total_split, TurnCost.total]
  ring

/-! ## Claims -/

/-- C7: starting from a fresh cost tracker, `add_stt_cost 30` yields
`stt_cost = 0.001`, `add_llm_cost 100 50` yields `llm_cost = 0.0000985`,
`add_tts_cost 200` yields `tts_cost = 0.048`, and the turn returned by
`finish_turn` has `total = 0.0490985` (exactly, in rational arithmetic);
history length becomes 1 and the new open turn's id is 1. -/
theorem C7_cost_scenario :
    ((CostTracker.init "s1" 0).add_stt_cost 30).current_turn.stt_cost = 1 / 1000
    ∧ (((CostTracker.init "s1" 0).add_stt_cost 30).add_llm_cost 100 50).current_turn.llm_cost
        = 985 / 10000000
    ∧ ((((CostTracker.init "s1" 0).add_stt_cost 30).add_llm_cost 100 50).add_tts_cost
        200).current_turn.tts_cost = 6 / 125
    ∧ (((((CostTracker.init "s1" 0).add_stt_cost 30).add_llm_cost 100 50).add_tts_cost
        200).finish_turn 1).1.total = 490985 / 10000000
    ∧ (((((CostTracker.init "s1" 0).add_stt_cost 30).add_llm_cost 100 50).add_tts_cost
        200).finish_turn 1).2.turns.length = 1
    ∧ (((((CostTracker.init "s1" 0).add_stt_cost 30).add_llm_cost 100 50).add_tts_cost
        200).finish_turn 1).2.current_turn.turn_id = 1 := by
  refine ⟨?_, ?_, ?_, ?_, ?_, ?_⟩ <;>
    norm_num [CostTracker.init, CostTracker.add_stt_cost, CostTracker.add_llm_cost,
      CostTracker.add_tts_cost, CostTracker.finish_turn, TurnCost.total, TurnCost.llm_cost,
      SONIOX_COST_PER_MINUTE, GROQ_INPUT_COST_PER_MILLION, GROQ_OUTPUT_COST_PER_MILLION,
      ELEVENLABS_COST_PER_1K_CHARS]

/-- C1 counterexample: on a tracker with one finalized zero-cost turn and
0.002 accumulated on the still-open turn, `average_cost_per_turn` is 0.002,
not the history-only average 0 the claim asserts. -/
theorem C1_counterexample :
    (((CostTracker.init "s" 0).finish_turn 0).2.add_stt_cost 60).average_cost_per_turn
      ≠ ((((CostTracker.init "s" 0).finish_turn 0).2.add_stt_cost 60).turns.map
          TurnCost.total).sum
        / (((((CostTracker.init "s" 0).finish_turn 0).2.add_stt_cost 60).turns.length : ℚ)) := by
  norm_num [CostTracker.init, CostTracker.finish_turn, CostTracker.add_stt_cost,
    CostTracker.average_cost_per_turn, CostTracker.total_cost, CostTracker.total_stt_cost,
    CostTracker.total_llm_cost, CostTracker.total_tts_cost, TurnCost.total, TurnCost.llm_cost,
    SONIOX_COST_PER_MINUTE]

/-- C1 (amended): `average_cost_per_turn` returns zero on an empty history,
and otherwise divides the total cost over history entries PLUS the still-open
turn's accumulated cost by the number of history entries. -/
theorem C1_average_cost_per_turn (c : CostTracker) :
    (c.turns = [] → c.average_cost_per_turn = 0)
    ∧ (c.turns ≠ [] →
        c.average_cost_per_turn
          = ((c.turns.map TurnCost.total).sum + c.current_turn.total)
            / (c.turns.length : ℚ)) := by
  constructor
  · intro h
    simp [CostTracker.average_cost_per_turn, h]
  · intro h
    simp [CostTracker.average_cost_per_turn, h, CostTracker.total_cost_eq_sum]

/-- C1 witness: the amended statement evaluated on a concrete tracker. -/
theorem C1_average_cost_per_turn_witness :
    (((CostTracker.init "s" 0).finish_turn 0).2.add_stt_cost 60).average_cost_per_turn
      = (((((CostTracker.init "s" 0).finish_turn 0).2.add_stt_cost 60).turns.map
            TurnCost.total).sum
          + (((CostTracker.init "s" 0).finish_turn 0).2.add_stt_cost 60).current_turn.total)
        / ((((CostTracker.init "s" 0).finish_turn 0).2.add_stt_cost 60).turns.length : ℚ) :=
  (C1_average_cost_per_turn _).2 (by decide)

/-- Modelled from the spec's documented aggregate metrics schema: the shape
claim C2 asserts for `get_aggregate_metrics` on an empty registry — a nested
`aggregate_cost` dict whose `total` field is 0.0, `target_latency_ms = 2000`,
and a present `total_turns` key. -/
def specEmptyAggregateSchema (r : AggregateMetrics) : Prop :=
  r.active_sessions = 0
  ∧ r.average_latency_ms = none
  ∧ (∃ stt llm tts : ℚ, r.aggregate_cost = .detailed 0 stt llm tts)
  ∧ r.target_latency_ms = some 2000
  ∧ r.total_turns.isSome = true

/-- C2 counterexample: on an empty registry the code returns `aggregate_cost`
as the bare float `0.0` (no `total`/`breakdown` fields) and omits the
`total_turns` and `target_latency_ms` keys, so the documented schema the claim
asserts does not hold. -/
theorem C2_counterexample :
    ¬ specEmptyAggregateSchema SessionManager.init.get_aggregate_metrics := by
  intro h
  obtain ⟨-, -, ⟨stt, llm, tts, hc⟩, -, -⟩ := h
  simp [SessionManager.get_aggregate_metrics, SessionManager.init] at hc

/-- C2 (amended): on a registry with no sessions, `get_aggregate_metrics`
returns `active_sessions = 0`, the preserved total-created counter, a bare
scalar `aggregate_cost = 0.0` with no breakdown, `average_latency_ms` absent,
and no `total_turns` or `target_latency_ms` entries at all. -/
theorem C2_empty_aggregate (m : SessionManager) (h : m.sessions = []) :
    m.get_aggregate_metrics
      = { active_sessions := 0
          total_sessions_created := m.total_sessions_created
          total_turns := none
          aggregate_cost := .scalar 0
          average_latency_ms := none
          target_latency_ms := none } := by
  simp [SessionManager.get_aggregate_metrics, h]

/-- C2 witness: the amended statement evaluated on the freshly initialized
registry. -/
theorem C2_empty_aggregate_witness :
    SessionManager.init.get_aggregate_metrics
      = { active_sessions := 0
          total_sessions_created := 0
          total_turns := none
          aggregate_cost := .scalar 0
          average_latency_ms := none
          target_latency_ms := none } :=
  C2_empty_aggregate SessionManager.init rfl

/-- C4 counterexample: with `start_time = 0`, `first_result = 0.15` s and
`end = 0.5` s — both required timestamps set — the code returns `None` for
both derived metrics (the Python truthiness guard treats the zero start
timestamp as unset), not the 150 ms and 500 ms the claim asserts. -/
theorem C4_counterexample :
    ¬ (({ stage := "stt", start_time := some 0, first_result_time := some (3 / 20),
          end_time := some (1 / 2) } : StageLatency).time_to_first_result = some 150
       ∧ ({ stage := "stt", start_time := some 0, first_result_time := some (3 / 20),
            end_time := some (1 / 2) } : StageLatency).total_duration = some 500) := by
  decide

/-- C4 (amended): `time_to_first_result` and `total_duration` return no value
whenever either of their two required timestamps is unset — or set to zero,
which the truthiness guard conflates with unset; when both are set and
nonzero they return the difference in milliseconds. -/
theorem C4_stage_timing (s : StageLatency) :
    (s.start_time = none ∨ s.first_result_time = none → s.time_to_first_result = none)
    ∧ (s.start_time = some 0 ∨ s.first_result_time = some 0 →
        s.time_to_first_result = none)
    ∧ (∀ a b : ℚ, s.start_time = some a → s.first_result_time = some b →
        a ≠ 0 → b ≠ 0 → s.time_to_first_result = some ((b - a) * 1000))
    ∧ (s.start_time = none ∨ s.end_time = none → s.total_duration = none)
    ∧ (s.start_time = some 0 ∨ s.end_time = some 0 → s.total_duration = none)
    ∧ (∀ a b : ℚ, s.start_time = some a → s.end_time = some b →
        a ≠ 0 → b ≠ 0 → s.total_duration = some ((b - a) * 1000)) := by
  rcases s with ⟨stg, st, fr, en⟩
  refine ⟨?_, ?_, ?_, ?_, ?_, ?_⟩
  · rintro (rfl | rfl)
    · cases fr <;> rfl
    · cases st <;> rfl
  · intro h
    rcases h with h | h <;> simp only at h <;> subst h
    · cases fr <;> simp [StageLatency.time_to_first_result]
    · cases st <;> simp [StageLatency.time_to_first_result]
  · intro a b ha hb ha0 hb0
    simp only at ha hb
    subst ha; subst hb
    simp [StageLatency.time_to_first_result, ha0, hb0]
  · rintro (rfl | rfl)
    · cases en <;> rfl
    · cases st <;> rfl
  · intro h
    rcases h with h | h <;> simp only at h <;> subst h
    · cases en <;> simp [StageLatency.total_duration]
    · cases st <;> simp [StageLatency.total_duration]
  · intro a b ha hb ha0 hb0
    simp only at ha hb
    subst ha; subst hb
    simp [StageLatency.total_duration, ha0, hb0]

/-- C4 witness: with start = 1 s, first result at 1.15 s and end at 1.5 s the
derived metrics are 150 ms and 500 ms; with a start timestamp of exactly 0 and
a first result at 0.15 s the derived metric is absent. -/
theorem C4_stage_timing_witness :
    ({ stage := "stt", start_time := some 1, first_result_time := some (23 / 20),
       end_time := some (3 / 2) } : StageLatency).time_to_first_result = some 150
    ∧ ({ stage := "stt", start_time := some 1, first_result_time := some (23 / 20),
         end_time := some (3 / 2) } : StageLatency).total_duration = some 500
    ∧ ({ stage := "stt", start_time := some 0, first_result_time := some (3 / 20),
         end_time := some (1 / 2) } : StageLatency).time_to_first_result = none := by
  refine ⟨?_, ?_, ?_⟩
  · have h := (C4_stage_timing
        { stage := "stt", start_time := some 1, first_result_time := some (23 / 20),
          end_time := some (3 / 2) }).2.2.1 1 (23 / 20) rfl rfl (by norm_num) (by norm_num)
    rw [h]; norm_num
  · have h := (C4_stage_timing
        { stage := "stt", start_time := some 1, first_result_time := some (23 / 20),
          end_time := some (3 / 2) }).2.2.2.2.2 1 (3 / 2) rfl rfl (by norm_num) (by norm_num)
    rw [h]; norm_num
  · exact (C4_stage_timing
        { stage := "stt", start_time := some 0, first_result_time := some (3 / 20),
          end_time := some (1 / 2) }).2.1 (Or.inl rfl)

/-- C5 counterexample: a turn with `stt.start_time = 0` and
`tts.first_result_time = 1` — both set — has `end_to_end_latency = None`
(the truthiness guard discards the zero start timestamp), not the
1000 ms difference the claim asserts for every turn with both fields set. -/
theorem C5_counterexample :
    ¬ (({ turn_id := 0, stt := { stage := "stt", start_time := some 0 },
          tts := { stage := "tts", first_result_time := some 1 } } : TurnLatency).end_to_end_latency
        = some ((1 - 0) * 1000)) := by
  simp [TurnLatency.end_to_end_latency]

/-- C5 (amended): for every open TurnLatency whose `stt.start_time` and
`tts.first_result_time` are both set AND nonzero, `end_to_end_latency` is
their difference in milliseconds; whenever the first-TTS-audio event reports a
`target_met` flag, the flag is true exactly when the reported latency is at
most 2000 ms, and concretely 1800 ms yields true while 2100 ms yields false. -/
theorem C5_end_to_end_target (t : TurnLatency) (a b : ℚ)
    (hsa : t.stt.start_time = some a) (htb : t.tts.first_result_time = some b)
    (ha : a ≠ 0) (hb : b ≠ 0) :
    t.end_to_end_latency = some ((b - a) * 1000)
    ∧ (∀ (l : LatencyTracker) (now : ℚ) (ev : E2ELogEvent),
        (l.tts_first_audio now).2 = some ev → (ev.target_met = true ↔ ev.latency_ms ≤ 2000))
    ∧ (((LatencyTracker.init "s" 0).start_stt 10).tts_first_audio (59 / 5)).2
        = some { latency_ms := 1800, target_met := true }
    ∧ (((LatencyTracker.init "s" 0).start_stt 10).tts_first_audio (121 / 10)).2
        = some { latency_ms := 2100, target_met := false } := by
  refine ⟨?_, ?_, ?_, ?_⟩
  · simp [TurnLatency.end_to_end_latency, hsa, htb, ha, hb]
  · intro l now ev h
    simp only [LatencyTracker.tts_first_audio] at h
    split at h
    · rename_i v heq
      split at h
      · exact absurd h (by simp)
      · rw [Option.some_inj] at h
        subst h
        simp
    · exact absurd h (by simp)
  · simp only [LatencyTracker.tts_first_audio, LatencyTracker.start_stt, LatencyTracker.init,
      TurnLatency.end_to_end_latency]
    norm_num
  · simp only [LatencyTracker.tts_first_audio, LatencyTracker.start_stt, LatencyTracker.init,
      TurnLatency.end_to_end_latency]
    norm_num

/-- C5 witness: the amended end-to-end formula evaluated on a concrete turn
(start at 10 s, first TTS audio at 11.8 s). -/
theorem C5_end_to_end_target_witness :
    ({ turn_id := 0, stt := { stage := "stt", start_time := some 10 },
       tts := { stage := "tts", first_result_time := some (59 / 5) } } : TurnLatency).end_to_end_latency
      = some ((59 / 5 - 10) * 1000) :=
  (C5_end_to_end_target
    { turn_id := 0, stt := { stage := "stt", start_time := some 10 },
      tts := { stage := "tts", first_result_time := some (59 / 5) } }
    10 (59 / 5) rfl rfl (by norm_num) (by norm_num)).1

/-- A tracker with two finalized turns: the first has a defined end-to-end
latency of exactly 0 ms (first TTS audio at the same nonzero instant STT
started), the second a defined latency of 1000 ms. -/
def c6tracker : LatencyTracker :=
  let l1 := (LatencyTracker.init "s" 0).start_stt 1
  let l2 := (l1.tts_first_audio 1).1
  let l3 := (l2.finish_turn 1).2
  let l4 := l3.start_stt 1
  let l5 := (l4.tts_first_audio 2).1
  (l5.finish_turn 2).2

/-- Evaluation: the truthiness filter keeps only the nonzero latency. -/
lemma c6tracker_qualifying : c6tracker.qualifying_latencies = [1000] := by
  norm_num [c6tracker, LatencyTracker.qualifying_latencies, LatencyTracker.init,
    LatencyTracker.start_stt, LatencyTracker.tts_first_audio, LatencyTracker.finish_turn,
    TurnLatency.end_to_end_latency, List.filterMap_cons]

/-- Evaluation: both history entries have a defined end-to-end latency. -/
lemma c6tracker_defined :
    c6tracker.turns.filterMap TurnLatency.end_to_end_latency = [0, 1000] := by
  norm_num [c6tracker, LatencyTracker.init, LatencyTracker.start_stt,
    LatencyTracker.tts_first_audio, LatencyTracker.finish_turn,
    TurnLatency.end_to_end_latency, List.filterMap_cons]

/-- C6 counterexample: on a tracker whose two history entries have defined
end-to-end latencies 0 ms and 1000 ms, the code returns an average of
1000 ms (the comprehension's truthiness filter drops the zero entry), not the
500 ms mean over all defined values that the claim asserts. -/
theorem C6_counterexample :
    c6tracker.average_end_to_end_latency = some 1000
    ∧ c6tracker.average_end_to_end_latency
        ≠ some ((c6tracker.turns.filterMap TurnLatency.end_to_end_latency).sum
                 / ((c6tracker.turns.filterMap TurnLatency.end_to_end_latency).length : ℚ)) := by
  constructor
  · simp [LatencyTracker.average_end_to_end_latency, c6tracker_qualifying]
  · simp [LatencyTracker.average_end_to_end_latency, c6tracker_qualifying, c6tracker_defined]
    norm_num

/-- C6 (amended): `average_end_to_end_latency` is the arithmetic mean of
`end_to_end_latency` over exactly those history entries whose value is defined
AND nonzero (defined-but-zero latencies are also skipped by the truthiness
filter), and it returns no value when no entry qualifies; entries where stt
was never started or tts never produced a first result have no defined value. -/
theorem C6_average_end_to_end (l : LatencyTracker) :
    (l.qualifying_latencies = [] → l.average_end_to_end_latency = none)
    ∧ (l.qualifying_latencies ≠ [] →
        l.average_end_to_end_latency
          = some (l.qualifying_latencies.sum / (l.qualifying_latencies.length : ℚ)))
    ∧ (∀ v : ℚ, v ∈ l.qualifying_latencies ↔
        ∃ t ∈ l.turns, t.end_to_end_latency = some v ∧ v ≠ 0)
    ∧ (∀ t : TurnLatency,
        t.stt.start_time = none ∨ t.tts.first_result_time = none →
        t.end_to_end_latency = none) := by
  refine ⟨?_, ?_, ?_, ?_⟩
  · intro h
    simp [LatencyTracker.average_end_to_end_latency, h]
  · intro h
    simp [LatencyTracker.average_end_to_end_latency, h]
  · intro v
    simp only [LatencyTracker.qualifying_latencies, List.mem_filterMap]
    constructor
    · rintro ⟨t, ht, hf⟩
      refine ⟨t, ht, ?_⟩
      rcases hE : t.end_to_end_latency with _ | w
      · rw [hE] at hf
        simp at hf
      · rw [hE] at hf
        by_cases hw : w = 0
        · simp [hw] at hf
        · simp [hw] at hf
          subst hf
          exact ⟨rfl, hw⟩
    · rintro ⟨t, ht, he, hv⟩
      refine ⟨t, ht, ?_⟩
      rw [he]
      simp [hv]
  · intro t h
    rcases hs : t.stt.start_time with _ | a
    · simp [TurnLatency.end_to_end_latency, hs]
    · rcases h with h | h
      · exact absurd hs (by rw [h]; simp)
      · simp [TurnLatency.end_to_end_latency, hs, h]

/-- C6 witness: the amended statement evaluated on `c6tracker`. -/
theorem C6_average_end_to_end_witness :
    c6tracker.average_end_to_end_latency
      = some (c6tracker.qualifying_latencies.sum / (c6tracker.qualifying_latencies.length : ℚ)) :=
  (C6_average_end_to_end c6tracker).2.1 (by simp [c6tracker_qualifying])

/-- Taking the first `l.length` elements of `l ++ m` recovers `l`. -/
lemma take_length_append {α : Type} (l m : List α) : (l ++ m).take l.length = l := by
  induction l with
  | nil => rfl
  | cons a t ih => simp [ih]

/-- The cost tracker obtained from a fresh one by `n` consecutive
`finish_turn` calls, the `k`-th using clock read `ts k`. -/
def costFinishN (sid : String) (t0 : ℚ) (ts : ℕ → ℚ) : ℕ → CostTracker
  | 0 => CostTracker.init sid t0
  | n + 1 => ((costFinishN sid t0 ts n).finish_turn (ts n)).2

/-- The latency tracker obtained from a fresh one by `n` consecutive
`finish_turn` calls. -/
def latFinishN (sid : String) (t0 : ℚ) (ts : ℕ → ℚ) : ℕ → LatencyTracker
  | 0 => LatencyTracker.init sid t0
  | n + 1 => ((latFinishN sid t0 ts n).finish_turn (ts n)).2

/-- After `n` finishes the cost history ids are `0..n-1` and the open turn and
counter sit at `n`. -/
lemma costFinishN_spec (sid : String) (t0 : ℚ) (ts : ℕ → ℚ) (n : ℕ) :
    (costFinishN sid t0 ts n).turns.map TurnCost.turn_id = List.range n
    ∧ (costFinishN sid t0 ts n).current_turn.turn_id = n
    ∧ (costFinishN sid t0 ts n).turn_counter = n := by
  induction n with
  | zero => exact ⟨rfl, rfl, rfl⟩
  | succ k ih =>
      obtain ⟨h1, h2, h3⟩ := ih
      refine ⟨?_, ?_, ?_⟩
      · simp [costFinishN, CostTracker.finish_turn, h1, h2, List.range_succ]
      · simp [costFinishN, CostTracker.finish_turn, h3]
      · simp [costFinishN, CostTracker.finish_turn, h3]

/-- After `n` finishes the latency history ids are `0..n-1` and the open turn
and counter sit at `n`. -/
lemma latFinishN_spec (sid : String) (t0 : ℚ) (ts : ℕ → ℚ) (n : ℕ) :
    (latFinishN sid t0 ts n).turns.map TurnLatency.turn_id = List.range n
    ∧ (latFinishN sid t0 ts n).current_turn.turn_id = n
    ∧ (latFinishN sid t0 ts n).turn_counter = n := by
  induction n with
  | zero => exact ⟨rfl, rfl, rfl⟩
  | succ k ih =>
      obtain ⟨h1, h2, h3⟩ := ih
      refine ⟨?_, ?_, ?_⟩
      · simp [latFinishN, LatencyTracker.finish_turn, h1, h2, List.range_succ]
      · simp [latFinishN, LatencyTracker.finish_turn, h3]
      · simp [latFinishN, LatencyTracker.finish_turn, h3]

/-- C3: calling `finish_turn` N times on a freshly constructed accumulator
(cost or latency) yields a history of exactly N entries whose turn ids are
`0, 1, ..., N-1` in order, leaving an open turn with id N; each single call
appends exactly one entry — the returned finalized turn — to the history, and
no later operation ever alters an existing history entry (so a returned turn,
being in history, is never mutated again). -/
theorem C3_finish_turn_sequence (N : ℕ) (hN : 1 ≤ N) (sid : String) (t0 : ℚ) (ts : ℕ → ℚ) :
    ((costFinishN sid t0 ts N).turns.map TurnCost.turn_id = List.range N
      ∧ (costFinishN sid t0 ts N).current_turn.turn_id = N
      ∧ (latFinishN sid t0 ts N).turns.map TurnLatency.turn_id = List.range N
      ∧ (latFinishN sid t0 ts N).current_turn.turn_id = N)
    ∧ (∀ (c : CostTracker) (t : ℚ),
        (c.finish_turn t).1 = c.current_turn
        ∧ (c.finish_turn t).2.turns = c.turns ++ [(c.finish_turn t).1])
    ∧ (∀ (l : LatencyTracker) (t : ℚ),
        (l.finish_turn t).1 = { l.current_turn with turn_end_time := some t }
        ∧ (l.finish_turn t).2.turns = l.turns ++ [(l.finish_turn t).1])
    ∧ (∀ (c : CostTracker) (op : CostOp),
        (c.step op).turns.take c.turns.length = c.turns)
    ∧ (∀ (l : LatencyTracker) (op : LatOp),
        (l.step op).turns.take l.turns.length = l.turns) := by
  refine ⟨⟨(costFinishN_spec sid t0 ts N).1, (costFinishN_spec sid t0 ts N).2.1,
           (latFinishN_spec sid t0 ts N).1, (latFinishN_spec sid t0 ts N).2.1⟩,
         fun c t => ⟨rfl, rfl⟩, fun l t => ⟨rfl, rfl⟩, ?_, ?_⟩
  · intro c op
    cases op <;>
      simp [CostTracker.step, CostTracker.add_stt_cost, CostTracker.add_llm_cost,
        CostTracker.add_tts_cost, CostTracker.finish_turn, take_length_append]
  · intro l op
    cases op <;>
      simp [LatencyTracker.step, LatencyTracker.start_stt, LatencyTracker.stt_first_result,
        LatencyTracker.end_stt, LatencyTracker.start_llm, LatencyTracker.llm_first_token,
        LatencyTracker.end_llm, LatencyTracker.start_tool, LatencyTracker.end_tool,
        LatencyTracker.start_tts, LatencyTracker.tts_first_audio, LatencyTracker.end_tts,
        LatencyTracker.finish_turn, take_length_append]

/-- C3 witness: two finishes on fresh trackers produce histories with ids
`[0, 1]` and open turns with id 2. -/
theorem C3_finish_turn_sequence_witness :
    (costFinishN "s" 0 (fun _ => 0) 2).turns.map TurnCost.turn_id = List.range 2
    ∧ (costFinishN "s" 0 (fun _ => 0) 2).current_turn.turn_id = 2
    ∧ (latFinishN "s" 0 (fun _ => 0) 2).turns.map TurnLatency.turn_id = List.range 2
    ∧ (latFinishN "s" 0 (fun _ => 0) 2).current_turn.turn_id = 2 :=
  (C3_finish_turn_sequence 2 (by norm_num) "s" 0 (fun _ => 0)).1

/-- Well-formedness of the registry state: the dict's keys are unique and
every mapped session is active. -/
def SessionManager.WF (m : SessionManager) : Prop :=
  (m.sessions.map Prod.fst).Nodup ∧ ∀ p ∈ m.sessions, p.2.is_active = true

/-- The fresh registry is well-formed. -/
lemma SessionManager.WF_init : SessionManager.init.WF := by
  constructor <;> simp [SessionManager.init]

/-- Every create/remove step preserves well-formedness. -/
lemma SessionManager.WF_step (m : SessionManager) (op : RegOp) (h : m.WF) :
    (m.step op).WF := by
  obtain ⟨hnd, hact⟩ := h
  cases op with
  | create sid meta now =>
      cases hl : m.lookup sid with
      | some s => simpa [SessionManager.step, SessionManager.create_session, hl] using ⟨hnd, hact⟩
      | none =>
          have hkeys : ∀ p ∈ m.sessions, ¬ p.1 = sid := by
            have h2 : ∀ (a : String) (b : Session), (a, b) ∈ m.sessions → ¬ a = sid := by
              simpa [SessionManager.lookup] using hl
            intro p hp
            exact h2 p.1 p.2 hp
          constructor
          · simp only [SessionManager.step, SessionManager.create_session, hl,
              List.map_append, List.map_cons, List.map_nil]
            rw [List.nodup_append]
            refine ⟨hnd, by simp, ?_⟩
            intro a ha
            simp only [List.mem_map] at ha
            obtain ⟨p, hp, rfl⟩ := ha
            simp [hkeys p hp]
          · intro p hp
            simp [SessionManager.step, SessionManager.create_session, hl] at hp
            rcases hp with hp | rfl
            · exact hact p hp
            · rfl
  | remove sid =>
      cases hl : m.lookup sid with
      | none => simpa [SessionManager.step, SessionManager.remove_session, hl] using ⟨hnd, hact⟩
      | some s =>
          constructor
          · simp only [SessionManager.step, SessionManager.remove_session, hl]
            exact ((List.filter_sublist _).map Prod.fst).nodup hnd
          · intro p hp
            simp only [SessionManager.step, SessionManager.remove_session, hl,
              List.mem_filter] at hp
            exact hact p hp.1

/-- Well-formedness is preserved by any operation sequence. -/
lemma SessionManager.WF_run (ops : List RegOp) (m : SessionManager) (h : m.WF) :
    (m.run ops).WF := by
  induction ops generalizing m with
  | nil => exact h
  | cons op rest ih => exact ih _ (SessionManager.WF_step m op h)

/-- C8: after any sequence of create/remove operations from a fresh registry,
every session present in the mapping is active; `remove_session` on a present
id returns the removed session — which was active — with `is_active` set to
false, and in the same step deletes the mapping entry; and `create_session`
only ever leaves old entries untouched or inserts an active one, so removal is
the only path to inactive. -/
theorem C8_registry_invariant (ops : List RegOp) :
    (∀ p ∈ (SessionManager.init.run ops).sessions, p.2.is_active = true)
    ∧ (∀ (m : SessionManager) (sid : String) (s : Session),
        m.WF → m.lookup sid = some s →
        s.is_active = true
        ∧ (m.remove_session sid).1 = some { s with is_active := false }
        ∧ (m.remove_session sid).2.lookup sid = none)
    ∧ (∀ (m : SessionManager) (sid : String) (meta : List (String × String)) (now : ℚ)
        (p : String × Session), p ∈ (m.create_session sid meta now).2.sessions →
        p ∈ m.sessions ∨ p.2.is_active = true) := by
  refine ⟨(SessionManager.WF_run ops SessionManager.init SessionManager.WF_init).2, ?_, ?_⟩
  · intro m sid s hWF hl
    obtain ⟨pr, hpr, hsnd⟩ := Option.map_eq_some'.mp hl
    have hmem := List.mem_of_find?_eq_some hpr
    refine ⟨hsnd ▸ hWF.2 pr hmem, ?_, ?_⟩
    · simp [SessionManager.remove_session, hl]
    · simp only [SessionManager.remove_session, hl]
      simp only [SessionManager.lookup]
      rw [Option.map_eq_none', List.find?_eq_none]
      intro p hp
      have hpred := List.of_mem_filter hp
      simpa using hpred
  · intro m sid meta now p hp
    cases hl : m.lookup sid with
    | some s =>
        simp only [SessionManager.create_session, hl] at hp
        exact Or.inl hp
    | none =>
        simp [SessionManager.create_session, hl] at hp
        rcases hp with hp | rfl
        · exact Or.inl hp
        · exact Or.inr rfl

/-- C8 witness: on a registry holding the single session "a", removal returns
it deactivated, it was active, and the mapping entry is gone. -/
theorem C8_registry_invariant_witness :
    (mkSession "a" 0 []).is_active = true
    ∧ (((SessionManager.init.create_session "a" [] 0).2).remove_session "a").1
        = some { mkSession "a" 0 [] with is_active := false }
    ∧ (((SessionManager.init.create_session "a" [] 0).2).remove_session "a").2.lookup "a"
        = none :=
  (C8_registry_invariant []).2.1 (SessionManager.init.create_session "a" [] 0).2 "a"
    (mkSession "a" 0 [])
    (SessionManager.WF_step SessionManager.init (RegOp.create "a" [] 0) SessionManager.WF_init)
    rfl

/-- The total-created counter never decreases across a single operation. -/
lemma SessionManager.step_counter_mono (m : SessionManager) (op : RegOp) :
    m.total_sessions_created ≤ (m.step op).total_sessions_created := by
  cases op with
  | create sid meta now =>
      cases hl : m.lookup sid <;>
        simp [SessionManager.step, SessionManager.create_session, hl, Nat.le_succ]
  | remove sid =>
      cases hl : m.lookup sid <;>
        simp [SessionManager.step, SessionManager.remove_session, hl]

/-- The total-created counter never decreases across any operation sequence. -/
lemma SessionManager.run_counter_mono (m : SessionManager) (ops : List RegOp) :
    m.total_sessions_created ≤ (m.run ops).total_sessions_created := by
  induction ops generalizing m with
  | nil => exact Nat.le_refl _
  | cons op rest ih =>
      exact Nat.le_trans (SessionManager.step_counter_mono m op) (ih (m.step op))

/-- C9: `create_session` on an id already present returns the existing session
and leaves the registry — including the total-created counter — completely
unchanged (no error); a create on an absent id increments the counter by
exactly one; and the counter never decreases under any create/remove
operation or sequence of operations. -/
theorem C9_create_idempotent_counter :
    (∀ (m : SessionManager) (sid : String) (meta : List (String × String)) (now : ℚ)
        (s : Session), m.lookup sid = some s →
        (m.create_session sid meta now).1 = s ∧ (m.create_session sid meta now).2 = m)
    ∧ (∀ (m : SessionManager) (sid : String) (meta : List (String × String)) (now : ℚ),
        m.lookup sid = none →
        (m.create_session sid meta now).2.total_sessions_created
          = m.total_sessions_created + 1)
    ∧ (∀ (m : SessionManager) (op : RegOp),
        m.total_sessions_created ≤ (m.step op).total_sessions_created)
    ∧ (∀ (m : SessionManager) (ops : List RegOp),
        m.total_sessions_created ≤ (m.run ops).total_sessions_created) := by
  refine ⟨?_, ?_, SessionManager.step_counter_mono, SessionManager.run_counter_mono⟩
  · intro m sid meta now s hl
    constructor <;> simp [SessionManager.create_session, hl]
  · intro m sid meta now hl
    simp [SessionManager.create_session, hl]

/-- C9 witness: a duplicate create of "a" returns the existing session without
touching the state, and the initial create incremented the counter to 1. -/
theorem C9_create_idempotent_counter_witness :
    ((SessionManager.init.create_session "a" [] 0).2.create_session "a" [] 7).1
        = mkSession "a" 0 []
    ∧ ((SessionManager.init.create_session "a" [] 0).2.create_session "a" [] 7).2
        = (SessionManager.init.create_session "a" [] 0).2
    ∧ (SessionManager.init.create_session "a" [] 0).2.total_sessions_created
        = SessionManager.init.total_sessions_created + 1 :=
  ⟨((C9_create_idempotent_counter).1 (SessionManager.init.create_session "a" [] 0).2
      "a" [] 7 (mkSession "a" 0 []) rfl).1,
   ((C9_create_idempotent_counter).1 (SessionManager.init.create_session "a" [] 0).2
      "a" [] 7 (mkSession "a" 0 []) rfl).2,
   (C9_create_idempotent_counter).2.1 SessionManager.init "a" [] 0 rfl⟩

/-- For the tool stage the first-result timestamp always coincides with the
end timestamp: only `end_tool` writes either, and it writes both at once. -/
def ToolConsistent (t : TurnLatency) : Prop :=
  t.tool.first_result_time = t.tool.end_time

/-- Every tracker operation preserves tool-stage consistency of the open turn
and of all history entries. -/
lemma toolConsistent_step (l : LatencyTracker) (op : LatOp)
    (h1 : ToolConsistent l.current_turn) (h2 : ∀ t ∈ l.turns, ToolConsistent t) :
    ToolConsistent (l.step op).current_turn
    ∧ ∀ t ∈ (l.step op).turns, ToolConsistent t := by
  cases op
  case finish now =>
    refine ⟨rfl, ?_⟩
    intro t ht
    simp only [LatencyTracker.step, LatencyTracker.finish_turn, List.mem_append,
      List.mem_cons, List.not_mem_nil, or_false] at ht
    rcases ht with h | rfl
    · exact h2 _ h
    · exact h1
  all_goals
    simp_all [LatencyTracker.step, LatencyTracker.start_stt, LatencyTracker.stt_first_result,
      LatencyTracker.end_stt, LatencyTracker.start_llm, LatencyTracker.llm_first_token,
      LatencyTracker.end_llm, LatencyTracker.start_tool, LatencyTracker.end_tool,
      LatencyTracker.start_tts, LatencyTracker.tts_first_audio, LatencyTracker.end_tts,
      ToolConsistent]

/-- Tool-stage consistency propagates through any operation sequence. -/
lemma toolConsistent_run (ops : List LatOp) (l : LatencyTracker)
    (h1 : ToolConsistent l.current_turn) (h2 : ∀ t ∈ l.turns, ToolConsistent t) :
    ToolConsistent (l.run ops).current_turn
    ∧ ∀ t ∈ (l.run ops).turns, ToolConsistent t := by
  induction ops generalizing l with
  | nil => exact ⟨h1, h2⟩
  | cons op rest ih =>
      obtain ⟨g1, g2⟩ := toolConsistent_step l op h1 h2
      exact ih _ g1 g2

/-- C10: `end_tool` sets the tool stage's first-result timestamp equal to its
end timestamp; in every state reachable from a fresh tracker the open turn and
every history turn satisfy this equality; and any turn satisfying it has
`time_to_first_result` equal to `total_duration` for the tool stage — the tool
stage never has a distinct first-result signal. -/
theorem C10_tool_first_equals_end (ops : List LatOp) (sid : String) (t0 : ℚ) :
    (∀ (l : LatencyTracker) (now : ℚ),
        (l.end_tool now).current_turn.tool.first_result_time
          = (l.end_tool now).current_turn.tool.end_time)
    ∧ ToolConsistent ((LatencyTracker.init sid t0).run ops).current_turn
    ∧ (∀ t ∈ ((LatencyTracker.init sid t0).run ops).turns, ToolConsistent t)
    ∧ (∀ t : TurnLatency, ToolConsistent t →
        t.tool.time_to_first_result = t.tool.total_duration) := by
  have hrun := toolConsistent_run ops (LatencyTracker.init sid t0) rfl (by simp [LatencyTracker.init])
  refine ⟨fun l now => rfl, hrun.1, hrun.2, ?_⟩
  intro t h
  simp [StageLatency.time_to_first_result, StageLatency.total_duration, ToolConsistent] at h ⊢
  rw [h]

/-- C10 witness: a turn whose tool stage ran from 1 s to 2 s has equal
time-to-first-result and total duration. -/
theorem C10_tool_first_equals_end_witness :
    (((LatencyTracker.init "s" 0).start_tool 1).end_tool 2).current_turn.tool.time_to_first_result
      = (((LatencyTracker.init "s" 0).start_tool 1).end_tool 2).current_turn.tool.total_duration :=
  (C10_tool_first_equals_end [] "s" 0).2.2.2 _ rfl

end VoiceApp
